import Mathlib

/-
Verification of the bitcoin-intel aggregation core (src/index.ts).

Shallow embedding conventions:
* JavaScript numbers that carry integer values here (satoshis, counts, sizes,
  weights, Unix timestamps) are modelled as Int or Nat.
* Number.prototype.toFixed d is modelled exactly on the rational value
  num / den: per ECMAScript, the sign is split off first and the magnitude is
  rounded to the nearest multiple of 10 ^ (-d), ties picking the larger n.
  Math.round is half toward positive infinity.  On the integer-valued inputs
  occurring in this program these coincide with the double computation.
* new Date(s * 1000).toISOString() is injective in s; ISO rendering is
  modelled by carrying the epoch value itself in the timestamp fields.
* Capture time (Date.now(), in Unix seconds) is passed explicitly as a
  parameter called now; the fetchedAt field stores it.
* The settled result of each upstream fetch is passed in as a value (or an
  Except value where a claim is about fetch failure).
-/

/-- Decimal rendering of m / 10 ^ d with exactly d fractional digits. -/
def fmtScaledNat (d : Nat) (m : Nat) : String :=
  if d = 0 then toString m
  else
    let digits := toString (m % 10 ^ d)
    toString (m / 10 ^ d) ++ "." ++ String.mk (List.replicate (d - digits.length) '0') ++ digits

/-- Math.round (num / den) for den > 0: nearest integer, half toward positive
infinity, computed as the floor of num / den + 1 / 2. -/
def jsRound (num den : Int) : Int :=
  Int.fdiv (2 * num + den) (2 * den)

/-- Number.prototype.toFixed d applied to the exact rational num / den
(den nonnegative; den = 0 models the NaN of a division by zero). -/
def jsToFixed (d : Nat) (num den : Int) : String :=
  if den = 0 then "NaN"
  else if num < 0 then "-" ++ fmtScaledNat d (jsRound (-num * (10 : Int) ^ d) den).toNat
  else fmtScaledNat d (jsRound (num * (10 : Int) ^ d) den).toNat

/-- satsToBtc from src/index.ts: (sats / 100_000_000).toFixed(8). -/
def satsToBtc (sats : Int) : String :=
  jsToFixed 8 sats 100000000

/-- JavaScript truthiness guard on a number field: cond ? some val : null,
where 0 and a missing field are falsy. -/
def jsTruthyInt (o : Option Int) : Option Int :=
  match o with
  | some t => if t = 0 then none else some t
  | none => none

/-- Array.prototype.slice(0, stop): a negative stop counts from the end. -/
def jsSlice0 {α : Type} (stop : Int) (xs : List α) : List α :=
  if 0 ≤ stop then xs.take stop.toNat
  else xs.take ((xs.length : Int) + stop).toNat

-- === Upstream response shapes (mempool.space, blockchair, blockchain.info) ===

/-- chain_stats / mempool_stats object of mempool.space address lookup. -/
structure AddressStats where
  funded_txo_sum : Int
  spent_txo_sum : Int
  funded_txo_count : Int
  spent_txo_count : Int
  tx_count : Int
deriving DecidableEq

structure AddressData where
  chain_stats : AddressStats
  mempool_stats : AddressStats
deriving DecidableEq

structure TxStatus where
  confirmed : Bool
  block_height : Option Int
  block_time : Option Int
deriving DecidableEq

structure Prevout where
  scriptpubkey_address : Option String
  value : Nat
deriving DecidableEq

structure Vin where
  prevout : Option Prevout
deriving DecidableEq

structure Vout where
  scriptpubkey_address : Option String
  value : Nat
deriving DecidableEq

structure Tx where
  txid : String
  status : TxStatus
  vin : List Vin
  vout : List Vout
  size : Nat
  weight : Nat
  fee : Nat
deriving DecidableEq

structure Pool where
  name : String
deriving DecidableEq

structure BlockExtras where
  pool : Option Pool
  reward : Option Int
  totalFees : Option Int
deriving DecidableEq

structure RawBlock where
  id : String
  height : Int
  timestamp : Int
  tx_count : Int
  size : Int
  weight : Int
  extras : Option BlockExtras
deriving DecidableEq

/-- mempool.space /api/v1/fees/recommended. -/
structure FeesRec where
  fastestFee : Int
  halfHourFee : Int
  hourFee : Int
  economyFee : Int
  minimumFee : Int
deriving DecidableEq

/-- mempool.space /api/mempool. -/
structure MempoolInfo where
  count : Int
  vsize : Int
  total_fee : Int
deriving DecidableEq

/-- data object of blockchair /bitcoin/stats. -/
structure StatsData where
  difficulty : Int
  hashrate_24h : Int
  mempool_transactions : Int
  mempool_size : Int
  market_price_usd : Int
deriving DecidableEq

structure StatsResp where
  data : StatsData
deriving DecidableEq

/-- blockchain.info /ticker; usd_last models ticker.USD.last. -/
structure Ticker where
  usd_last : Int
deriving DecidableEq

-- === Output shapes and handlers ===

/-- Output of the overview route (src/index.ts lines 32-77). -/
structure NetworkOut where
  blockHeight : Int
  difficulty : Int
  hashrate : Int
  mempoolTxs : Int
  mempoolSize : Int
deriving DecidableEq

structure FeeTiersOut where
  fastest : Int
  halfHour : Int
  hour : Int
  economy : Int
  minimum : Int
  unit : String
deriving DecidableEq

structure PriceOut where
  usd : Int
deriving DecidableEq

structure LatestBlockOut where
  height : Int
  timestamp : Int
  txCount : Int
  size : Int
deriving DecidableEq

structure OverviewOut where
  network : NetworkOut
  fees : FeeTiersOut
  price : PriceOut
  latestBlock : LatestBlockOut
  fetchedAt : Int
  dataSources : List String
deriving DecidableEq

/-- The overview route handler.  blocks[0] on an empty upstream list is
undefined and reading .height from it throws, so the try/catch turns that
case into a failed response: modelled as none. -/
def overviewHandler (fees : FeesRec) (stats : StatsResp) (blocks : List RawBlock)
    (now : Int) : Option OverviewOut :=
  match blocks with
  | [] => none
  | latestBlock :: _ =>
    let networkStats := stats.data
    some
      { network :=
          { blockHeight := latestBlock.height
            difficulty := networkStats.difficulty
            hashrate := networkStats.hashrate_24h
            mempoolTxs := networkStats.mempool_transactions
            mempoolSize := networkStats.mempool_size }
        fees :=
          { fastest := fees.fastestFee
            halfHour := fees.halfHourFee
            hour := fees.hourFee
            economy := fees.economyFee
            minimum := fees.minimumFee
            unit := "sat/vB" }
        price := { usd := networkStats.market_price_usd }
        latestBlock :=
          { height := latestBlock.height
            timestamp := latestBlock.timestamp
            txCount := latestBlock.tx_count
            size := latestBlock.size }
        fetchedAt := now
        dataSources := ["mempool.space", "blockchair.com"] }

/-- balance object of the address entrypoint output. -/
structure BalanceOut where
  confirmed : String
  unconfirmed : String
  total : String
  sats : Int
deriving DecidableEq

structure TxCountsOut where
  confirmed : Int
  unconfirmed : Int
  total : Int
deriving DecidableEq

structure AddressOut where
  address : String
  balance : BalanceOut
  transactions : TxCountsOut
  received : String
  spent : String
  fetchedAt : Int
deriving DecidableEq

/-- The address entrypoint handler (src/index.ts lines 87-113). -/
def addressHandler (address : String) (data : AddressData) (now : Int) : AddressOut :=
  let chainBalance := data.chain_stats.funded_txo_sum - data.chain_stats.spent_txo_sum
  let mempoolBalance := data.mempool_stats.funded_txo_sum - data.mempool_stats.spent_txo_sum
  let totalBalance := chainBalance + mempoolBalance
  { address := address
    balance :=
      { confirmed := satsToBtc chainBalance
        unconfirmed := satsToBtc mempoolBalance
        total := satsToBtc totalBalance
        sats := totalBalance }
    transactions :=
      { confirmed := data.chain_stats.tx_count
        unconfirmed := data.mempool_stats.tx_count
        total := data.chain_stats.tx_count + data.mempool_stats.tx_count }
    received := satsToBtc data.chain_stats.funded_txo_sum
    spent := satsToBtc data.chain_stats.spent_txo_sum
    fetchedAt := now }

structure FeeOut where
  sats : Nat
  btc : String
  satPerVb : String
deriving DecidableEq

structure IoTotalsOut where
  count : Nat
  totalBtc : String
deriving DecidableEq

structure AddrListsOut where
  inputs : List String
  outputs : List String
deriving DecidableEq

structure TransactionOut where
  txid : String
  confirmed : Bool
  blockHeight : Option Int
  blockTime : Option Int
  size : Nat
  weight : Nat
  vsize : Nat
  fee : FeeOut
  inputs : IoTotalsOut
  outputs : IoTotalsOut
  addresses : AddrListsOut
  fetchedAt : Int
deriving DecidableEq

/-- Math.ceil(weight / 4) for a nonnegative integer weight. -/
def vsizeOf (weight : Nat) : Nat := (weight + 3) / 4

/-- The transaction entrypoint handler (src/index.ts lines 124-159).
filter(Boolean) also drops empty-string addresses. -/
def transactionHandler (tx : Tx) (now : Int) : TransactionOut :=
  let totalInput := (tx.vin.map (fun v => (v.prevout.map Prevout.value).getD 0)).sum
  let totalOutput := (tx.vout.map Vout.value).sum
  { txid := tx.txid
    confirmed := tx.status.confirmed
    blockHeight := jsTruthyInt tx.status.block_height
    blockTime := jsTruthyInt tx.status.block_time
    size := tx.size
    weight := tx.weight
    vsize := vsizeOf tx.weight
    fee :=
      { sats := tx.fee
        btc := satsToBtc (tx.fee : Int)
        satPerVb := jsToFixed 2 (tx.fee : Int) ((vsizeOf tx.weight : Nat) : Int) }
    inputs := { count := tx.vin.length, totalBtc := satsToBtc (totalInput : Int) }
    outputs := { count := tx.vout.length, totalBtc := satsToBtc (totalOutput : Int) }
    addresses :=
      { inputs := (tx.vin.take 5).filterMap
          (fun v => match v.prevout.bind Prevout.scriptpubkey_address with
            | some s => if s = "" then none else some s
            | none => none)
        outputs := (tx.vout.take 5).filterMap
          (fun v => match v.scriptpubkey_address with
            | some s => if s = "" then none else some s
            | none => none) }
    fetchedAt := now }

/-- estimatedMinutes tier value: a number of minutes or the literal string
used for the minimum tier. -/
inductive EstMinutes where
  | mins (m : Int)
  | varMarker
deriving DecidableEq

structure TierOut where
  satsPerVb : Int
  estimatedMinutes : EstMinutes
deriving DecidableEq

structure RecommendedOut where
  fastest : TierOut
  halfHour : TierOut
  hour : TierOut
  economy : TierOut
  minimum : TierOut
deriving DecidableEq

structure MempoolOut where
  count : Int
  vsize : Int
  totalFee : Int
  sizeMb : String
deriving DecidableEq

structure CostEstimatesOut where
  note : String
  fastest : String
  economy : String
deriving DecidableEq

structure RecentBlockOut where
  height : Int
  txCount : Int
  size : Int
  weight : Int
deriving DecidableEq

structure FeesOut where
  recommended : RecommendedOut
  mempool : MempoolOut
  costEstimates : CostEstimatesOut
  recentBlocks : List RecentBlockOut
  avgBlockTime : String
  fetchedAt : Int
deriving DecidableEq

/-- avgBlockTime value of the fees entrypoint, already rendered with
toFixed(1): (blocks[0].timestamp - blocks[blocks.length - 1].timestamp)
/ (length - 1) / 60 when more than one block was sampled, 10 otherwise. -/
def avgBlockTimeStr (blocks : List RawBlock) : String :=
  match blocks with
  | [] => "10.0"
  | [_] => "10.0"
  | b0 :: b1 :: rest =>
    jsToFixed 1 (b0.timestamp - ((b1 :: rest).getLast (List.cons_ne_nil b1 rest)).timestamp)
      ((((b0 :: b1 :: rest).length : Int) - 1) * 60)

/-- The fees entrypoint handler (src/index.ts lines 168-209).  The blocks
fetch is post-processed with slice(0, 6). -/
def feesHandler (fees : FeesRec) (mp : MempoolInfo) (allBlocks : List RawBlock)
    (now : Int) : FeesOut :=
  let blocks := allBlocks.take 6
  { recommended :=
      { fastest := { satsPerVb := fees.fastestFee, estimatedMinutes := .mins 10 }
        halfHour := { satsPerVb := fees.halfHourFee, estimatedMinutes := .mins 30 }
        hour := { satsPerVb := fees.hourFee, estimatedMinutes := .mins 60 }
        economy := { satsPerVb := fees.economyFee, estimatedMinutes := .mins 120 }
        minimum := { satsPerVb := fees.minimumFee, estimatedMinutes := .varMarker } }
    mempool :=
      { count := mp.count
        vsize := mp.vsize
        totalFee := mp.total_fee
        sizeMb := jsToFixed 2 mp.vsize 1000000 }
    costEstimates :=
      { note := "Estimates for typical P2PKH transaction (225 vbytes)"
        fastest := toString (fees.fastestFee * 225) ++ " sats"
        economy := toString (fees.economyFee * 225) ++ " sats" }
    recentBlocks := blocks.map (fun b =>
      { height := b.height, txCount := b.tx_count, size := b.size, weight := b.weight })
    avgBlockTime := avgBlockTimeStr blocks ++ " minutes"
    fetchedAt := now }

structure BlockOut where
  height : Int
  hash : String
  timestamp : Int
  txCount : Int
  size : Int
  weight : Int
  miner : String
  reward : Option String
  fees : Option String
deriving DecidableEq

structure BlocksSummaryOut where
  blocksReturned : Int
  totalTransactions : Int
  avgTxPerBlock : Int
  totalSizeMb : String
  heightRange : String
deriving DecidableEq

structure BlocksOut where
  blocks : List BlockOut
  summary : BlocksSummaryOut
  fetchedAt : Int
deriving DecidableEq

/-- Per-block output mapping of the blocks entrypoint; the or-defaults use
JavaScript truthiness (an empty pool name or a zero reward count as absent). -/
def blockOut (b : RawBlock) : BlockOut :=
  { height := b.height
    hash := b.id
    timestamp := b.timestamp
    txCount := b.tx_count
    size := b.size
    weight := b.weight
    miner :=
      match (b.extras.bind BlockExtras.pool).map Pool.name with
      | some s => if s = "" then "Unknown" else s
      | none => "Unknown"
    reward :=
      match b.extras.bind BlockExtras.reward with
      | some r => if r = 0 then none else some (satsToBtc r)
      | none => none
    fees :=
      match b.extras.bind BlockExtras.totalFees with
      | some r => if r = 0 then none else some (satsToBtc r)
      | none => none }

/-- The blocks entrypoint handler (src/index.ts lines 220-251).  limit is
only bounded above: Math.min(limit, 15), then blocks.slice(0, limit).
On an empty slice, summary.heightRange reads .height of undefined and the
handler throws: modelled as none. -/
def blocksHandler (limit : Int) (upstream : List RawBlock) (now : Int) : Option BlocksOut :=
  match jsSlice0 (min limit 15) upstream with
  | [] => none
  | first :: rest =>
    let totalTxs := ((first :: rest).map RawBlock.tx_count).sum
    let totalSize := ((first :: rest).map RawBlock.size).sum
    some
      { blocks := (first :: rest).map blockOut
        summary :=
          { blocksReturned := ((first :: rest).length : Int)
            totalTransactions := totalTxs
            avgTxPerBlock := jsRound totalTxs (((first :: rest).length : Int))
            totalSizeMb := jsToFixed 2 totalSize 1000000
            heightRange :=
              toString ((first :: rest).getLast (List.cons_ne_nil first rest)).height
                ++ " - " ++ toString first.height }
        fetchedAt := now }

structure RecentTxOut where
  txid : String
  confirmed : Bool
  blockHeight : Option Int
  timestamp : Option Int
  type : String
  amount : String
deriving DecidableEq

structure ReportBalanceOut where
  btc : String
  sats : Int
  usd : String
deriving DecidableEq

structure ActivityOut where
  totalTransactions : Int
  totalReceived : String
  totalSpent : String
  utxoCount : Int
deriving DecidableEq

structure ClassificationOut where
  isActive : Bool
  isWhale : Bool
  hasRecentActivity : Bool
deriving DecidableEq

structure PricingOut where
  btcUsd : Int
deriving DecidableEq

structure AddressReportOut where
  address : String
  balance : ReportBalanceOut
  activity : ActivityOut
  classification : ClassificationOut
  recentTransactions : List RecentTxOut
  pricing : PricingOut
  fetchedAt : Int
deriving DecidableEq

/-- The per-transaction mapping of the address-report recentTransactions list
(src/index.ts lines 273-292).  An entry is tagged outgoing when some input
spends from the queried address; its amount sums only the outputs paying the
queried address and stays 0 otherwise. -/
def recentTxOut (address : String) (tx : Tx) : RecentTxOut :=
  let isIncoming := tx.vout.any (fun v => v.scriptpubkey_address == some address)
  let isOutgoing := tx.vin.any
    (fun v => (v.prevout.bind Prevout.scriptpubkey_address) == some address)
  let amount : Nat :=
    if isIncoming then
      ((tx.vout.filter (fun v => v.scriptpubkey_address == some address)).map Vout.value).sum
    else 0
  { txid := tx.txid
    confirmed := tx.status.confirmed
    blockHeight := tx.status.block_height
    timestamp := jsTruthyInt tx.status.block_time
    type := if isOutgoing then "outgoing" else "incoming"
    amount := satsToBtc (amount : Int) }

/-- hasRecentActivity of the address-report classification (src/index.ts
lines 311-313): some transaction has a truthy block_time within
86400 * 30 seconds before the capture time. -/
def hasRecentActivity (now : Int) (txs : List Tx) : Bool :=
  txs.any (fun tx =>
    match tx.status.block_time with
    | some t => decide (t ≠ 0) && decide (now - t < 86400 * 30)
    | none => false)

/-- The address-report entrypoint handler (src/index.ts lines 262-322).
The three fetches settle as Except values; the transaction-history fetch
carries .catch(() => []), so its failure is replaced by the empty list,
while a failure of the address fetch or of the ticker fetch rejects the
whole Promise.all and the query fails. -/
def addressReportHandler (address : String) (addrR : Except String AddressData)
    (txsR : Except String (List Tx)) (tickerR : Except String Ticker)
    (now : Int) : Except String AddressReportOut :=
  match addrR, tickerR with
  | .error e, _ => .error e
  | .ok _, .error e => .error e
  | .ok addressData, .ok ticker =>
    let txs := match txsR with
      | .ok l => l
      | .error _ => []
    let chainBalance := addressData.chain_stats.funded_txo_sum
      - addressData.chain_stats.spent_txo_sum
    let btcPrice := ticker.usd_last
    .ok
      { address := address
        balance :=
          { btc := satsToBtc chainBalance
            sats := chainBalance
            usd := jsToFixed 2 (chainBalance * btcPrice) 100000000 }
        activity :=
          { totalTransactions := addressData.chain_stats.tx_count
            totalReceived := satsToBtc addressData.chain_stats.funded_txo_sum
            totalSpent := satsToBtc addressData.chain_stats.spent_txo_sum
            utxoCount := addressData.chain_stats.funded_txo_count
              - addressData.chain_stats.spent_txo_count }
        classification :=
          { isActive := decide (addressData.chain_stats.tx_count > 10)
            isWhale := decide (chainBalance > 100000000000)
            hasRecentActivity := hasRecentActivity now txs }
        recentTransactions := (txs.take 10).map (recentTxOut address)
        pricing := { btcUsd := btcPrice }
        fetchedAt := now }

-- === Fixtures and timestamp erasers ===

def sampleBlock (h : Int) : RawBlock :=
  { id := "hash", height := h, timestamp := 600 * h, tx_count := 3, size := 100,
    weight := 400, extras := none }

def sampleBlocks15 : List RawBlock :=
  (List.range 15).map (fun i => sampleBlock (i : Int))

def sampleFees : FeesRec :=
  { fastestFee := 1, halfHourFee := 2, hourFee := 3, economyFee := 4, minimumFee := 5 }

def sampleStats (d : Int) : StatsResp :=
  { data := { difficulty := d, hashrate_24h := 7, mempool_transactions := 8,
              mempool_size := 9, market_price_usd := 11 } }

def sampleMempool : MempoolInfo := { count := 2, vsize := 3, total_fee := 4 }

def sampleTicker : Ticker := { usd_last := 60000 }

def sampleAddressData : AddressData :=
  { chain_stats := { funded_txo_sum := 500000000, spent_txo_sum := 200000000,
                     funded_txo_count := 4, spent_txo_count := 1, tx_count := 5 }
    mempool_stats := { funded_txo_sum := 0, spent_txo_sum := 0,
                       funded_txo_count := 0, spent_txo_count := 0, tx_count := 0 } }

def sampleTxAt (t : Option Int) : Tx :=
  { txid := "txid", status := { confirmed := true, block_height := some 1, block_time := t },
    vin := [], vout := [], size := 200, weight := 800, fee := 1000 }

def txW : Tx :=
  { txid := "t", status := { confirmed := true, block_height := none, block_time := none },
    vin := [], vout := [], size := 200, weight := 800, fee := 1000 }

def outgoingTx : Tx :=
  { txid := "txo", status := { confirmed := true, block_height := some 1, block_time := some 5 },
    vin := [{ prevout := some { scriptpubkey_address := some "addrA", value := 700 } }],
    vout := [{ scriptpubkey_address := some "addrB", value := 650 }],
    size := 200, weight := 800, fee := 50 }

/-- Output with the capture-time field cleared, for re-run comparison. -/
def OverviewOut.stable (o : OverviewOut) : OverviewOut := { o with fetchedAt := 0 }

def AddressOut.stable (o : AddressOut) : AddressOut := { o with fetchedAt := 0 }

def TransactionOut.stable (o : TransactionOut) : TransactionOut := { o with fetchedAt := 0 }

def FeesOut.stable (o : FeesOut) : FeesOut := { o with fetchedAt := 0 }

def BlocksOut.stable (o : BlocksOut) : BlocksOut := { o with fetchedAt := 0 }

def AddressReportOut.stable (o : AddressReportOut) : AddressReportOut := { o with fetchedAt := 0 }

/-- Output with the capture-time field cleared and the one clock-dependent
classification flag cleared as well. -/
def AddressReportOut.stableNoClock (o : AddressReportOut) : AddressReportOut :=
  { o with fetchedAt := 0
           classification := { o.classification with hasRecentActivity := false } }

/-- Well-formedness of fetched transaction history: every present block time
is positive and not after the capture time. -/
def timesWellFormed (now : Int) (txs : List Tx) : Bool :=
  txs.all (fun tx =>
    match tx.status.block_time with
    | some t => decide (0 < t) && decide (t ≤ now)
    | none => true)

-- === Claim theorems ===

/-- Claim C3: for every address query response, the total balance in sats is
the confirmed balance (chain funded minus spent) plus the unconfirmed balance
(mempool funded minus spent), and the confirmed / unconfirmed / total strings
are the corresponding sats values divided by 100,000,000 rendered with fixed
8-decimal precision (satsToBtc); the equations hold for every Int input, so a
negative confirmed balance is passed through unclamped. -/
theorem address_balance_fields (a : String) (d : AddressData) (now : Int) :
    (addressHandler a d now).balance.sats
        = (d.chain_stats.funded_txo_sum - d.chain_stats.spent_txo_sum)
          + (d.mempool_stats.funded_txo_sum - d.mempool_stats.spent_txo_sum)
    ∧ (addressHandler a d now).balance.confirmed
        = satsToBtc (d.chain_stats.funded_txo_sum - d.chain_stats.spent_txo_sum)
    ∧ (addressHandler a d now).balance.unconfirmed
        = satsToBtc (d.mempool_stats.funded_txo_sum - d.mempool_stats.spent_txo_sum)
    ∧ (addressHandler a d now).balance.total
        = satsToBtc ((d.chain_stats.funded_txo_sum - d.chain_stats.spent_txo_sum)
          + (d.mempool_stats.funded_txo_sum - d.mempool_stats.spent_txo_sum)) :=
  ⟨rfl, rfl, rfl, rfl⟩

/-- Claim C5: in the address-report classification, isActive holds exactly
when the confirmed transaction count is strictly greater than 10, and isWhale
exactly when the confirmed balance is strictly greater than
100,000,000,000 sats. -/
theorem address_report_thresholds (a : String) (d : AddressData) (txs : List Tx)
    (tk : Ticker) (now : Int) :
    ∃ out, addressReportHandler a (.ok d) (.ok txs) (.ok tk) now = .ok out
      ∧ (out.classification.isActive = true ↔ d.chain_stats.tx_count > 10)
      ∧ (out.classification.isWhale = true
          ↔ d.chain_stats.funded_txo_sum - d.chain_stats.spent_txo_sum > 100000000000) := by
  refine ⟨_, rfl, ?_, ?_⟩ <;> simp [decide_eq_true_eq]

/-- Claim C2: for the address-report query, a failed transaction-history fetch
is replaced by the empty list, so the query succeeds with
recentTransactions = [] and behaves exactly as if the history fetch had
returned []; a failed address-balance fetch fails the whole query. -/
theorem address_report_partial_failure :
    (∀ (a : String) (d : AddressData) (tk : Ticker) (e : String) (now : Int),
        ∃ out, addressReportHandler a (.ok d) (.error e) (.ok tk) now = .ok out
          ∧ out.recentTransactions = []
          ∧ addressReportHandler a (.ok d) (.error e) (.ok tk) now
              = addressReportHandler a (.ok d) (.ok []) (.ok tk) now)
    ∧ (∀ (a : String) (e : String) (txsR : Except String (List Tx))
          (tickerR : Except String Ticker) (now : Int),
        ∃ msg, addressReportHandler a (.error e) txsR tickerR now = .error msg) := by
  constructor
  · intro a d tk e now
    exact ⟨_, rfl, rfl, rfl⟩
  · intro a e txsR tickerR now
    exact ⟨e, rfl⟩

/-- The blockHeight / difficulty pair of the overview output, as a function of
the three upstream responses. -/
def overviewPair (f : FeesRec) (s : StatsResp) (bs : List RawBlock) : Option (Int × Int) :=
  (overviewHandler f s bs 0).map (fun o => (o.network.blockHeight, o.network.difficulty))

/-- Claim C9 formalised: some single provider's response determines both the
block height and the difficulty of the overview output.  mempool.space serves
the fee-recommendations and the recent-blocks responses, blockchair serves the
chain-statistics response, so the claim says: either varying the statistics
response alone changes neither field, or varying the fees and blocks responses
alone changes neither field. -/
def c9SingleProviderClaim : Prop :=
  (∀ (f : FeesRec) (s s2 : StatsResp) (bs : List RawBlock),
      overviewPair f s bs = overviewPair f s2 bs)
  ∨ (∀ (f f2 : FeesRec) (s : StatsResp) (bs bs2 : List RawBlock),
      overviewPair f s bs = overviewPair f2 s bs2)

/-- Claim C9, counterexample: the block height and the difficulty of the
overview output do not come from one single provider's response: the
difficulty changes when only the blockchair statistics response varies, and
the block height changes when only the mempool.space blocks response varies. -/
theorem overview_provenance_counterexample : ¬ c9SingleProviderClaim := by
  rintro (h | h)
  · exact absurd (h sampleFees (sampleStats 5) (sampleStats 7) [sampleBlock 100]) (by decide)
  · exact absurd (h sampleFees sampleFees (sampleStats 5) [sampleBlock 100] [sampleBlock 200])
      (by decide)

/-- Claim C9, amended: in the overview output the block height comes from the
recent-blocks response (mempool.space) while the difficulty comes from the
chain-statistics response (blockchair) — two different providers — and the
fee tiers come from the fee-recommendations response. -/
theorem overview_provenance (f : FeesRec) (s : StatsResp) (b : RawBlock)
    (bs : List RawBlock) (now : Int) :
    ∃ out, overviewHandler f s (b :: bs) now = some out
      ∧ out.network.blockHeight = b.height
      ∧ out.network.difficulty = s.data.difficulty
      ∧ out.fees.fastest = f.fastestFee
      ∧ out.fees.halfHour = f.halfHourFee
      ∧ out.fees.hour = f.hourFee
      ∧ out.fees.economy = f.economyFee
      ∧ out.fees.minimum = f.minimumFee :=
  ⟨_, rfl, rfl, rfl, rfl, rfl, rfl, rfl, rfl⟩

/-- Claim C4: for every transaction query on a transaction of positive weight,
the reported virtual size is ceil(weight / 4) — characterised by
weight ≤ 4 * vsize < weight + 4 — and the reported satPerVb string is
fee / vsize rounded to exactly 2 decimal places (nearest multiple of 1/100,
ties up) and rendered with 2 fractional digits. -/
theorem transaction_vsize_feerate (tx : Tx) (now : Int) (hw : 0 < tx.weight) :
    (transactionHandler tx now).vsize = (tx.weight + 3) / 4
    ∧ tx.weight ≤ 4 * (transactionHandler tx now).vsize
    ∧ 4 * (transactionHandler tx now).vsize < tx.weight + 4
    ∧ (transactionHandler tx now).fee.satPerVb
        = fmtScaledNat 2 (jsRound ((tx.fee : Int) * 100)
            (((tx.weight + 3) / 4 : Nat) : Int)).toNat := by
  have hv : vsizeOf tx.weight ≠ 0 := by
    unfold vsizeOf; omega
  refine ⟨rfl, ?_, ?_, ?_⟩
  · show tx.weight ≤ 4 * vsizeOf tx.weight
    unfold vsizeOf; omega
  · show 4 * vsizeOf tx.weight < tx.weight + 4
    unfold vsizeOf; omega
  · show jsToFixed 2 (tx.fee : Int) ((vsizeOf tx.weight : Nat) : Int) = _
    unfold jsToFixed
    rw [if_neg (by exact_mod_cast hv), if_neg (by simp)]
    norm_num [vsizeOf]

/-- Witness for C4 at a concrete transaction: weight 800, fee 1000. -/
theorem transaction_vsize_feerate_witness :
    0 < txW.weight
    ∧ ((transactionHandler txW 0).vsize = (txW.weight + 3) / 4
      ∧ txW.weight ≤ 4 * (transactionHandler txW 0).vsize
      ∧ 4 * (transactionHandler txW 0).vsize < txW.weight + 4
      ∧ (transactionHandler txW 0).fee.satPerVb
          = fmtScaledNat 2 (jsRound ((txW.fee : Int) * 100)
              (((txW.weight + 3) / 4 : Nat) : Int)).toNat) :=
  ⟨by decide, transaction_vsize_feerate txW 0 (by decide)⟩

/-- Claim C6: in the address-report classification, hasRecentActivity holds
exactly when some transaction of the fetched history has a block time within
86,400 * 30 seconds before the capture time; a transaction without a block
time is never recent and causes no failure.  The hypothesis states that the
fetched block times are well formed (positive, not after capture time). -/
theorem address_report_recent_activity (a : String) (d : AddressData) (txs : List Tx)
    (tk : Ticker) (now : Int) (hwf : timesWellFormed now txs = true) :
    ∃ out, addressReportHandler a (.ok d) (.ok txs) (.ok tk) now = .ok out
      ∧ (out.classification.hasRecentActivity = true
          ↔ ∃ tx ∈ txs, ∃ t, tx.status.block_time = some t ∧ now - t < 86400 * 30) := by
  refine ⟨_, rfl, ?_⟩
  show hasRecentActivity now txs = true ↔ _
  rw [hasRecentActivity, List.any_eq_true]
  constructor
  · rintro ⟨tx, htx, hp⟩
    cases hbt : tx.status.block_time with
    | none => rw [hbt] at hp; simp at hp
    | some t =>
      rw [hbt] at hp
      simp only [Bool.and_eq_true, decide_eq_true_eq] at hp
      exact ⟨tx, htx, t, hbt, hp.2⟩
  · rintro ⟨tx, htx, t, hbt, hrec⟩
    refine ⟨tx, htx, ?_⟩
    have hwt := (List.all_eq_true.mp hwf) tx htx
    rw [hbt] at hwt ⊢
    simp only [Bool.and_eq_true, decide_eq_true_eq] at hwt ⊢
    exact ⟨by omega, hrec⟩

/-- Witness for C6: one transaction confirmed 100 seconds before capture. -/
theorem address_report_recent_activity_witness :
    timesWellFormed 200 [sampleTxAt (some 100)] = true
    ∧ (∃ out, addressReportHandler "a" (.ok sampleAddressData)
          (.ok [sampleTxAt (some 100)]) (.ok sampleTicker) 200 = .ok out
        ∧ (out.classification.hasRecentActivity = true
            ↔ ∃ tx ∈ [sampleTxAt (some 100)], ∃ t,
                tx.status.block_time = some t ∧ 200 - t < 86400 * 30)) :=
  ⟨by decide, address_report_recent_activity "a" sampleAddressData
    [sampleTxAt (some 100)] sampleTicker 200 (by decide)⟩

/-- Claim C7: the fees query samples at most 6 recent blocks; with at least 2
sampled blocks the reported average block time is (newest timestamp minus
oldest timestamp) divided by (sampleCount - 1), converted to minutes and
rendered with 1 decimal place; with fewer than 2 it is the 10-minute
default. -/
theorem fees_avg_block_time (fr : FeesRec) (mp : MempoolInfo) (bs : List RawBlock)
    (now : Int) :
    (feesHandler fr mp bs now).recentBlocks.length = min bs.length 6
    ∧ ((bs.take 6).length < 2 → (feesHandler fr mp bs now).avgBlockTime = "10.0 minutes")
    ∧ (∀ b0 b1 rest, bs.take 6 = b0 :: b1 :: rest →
        (feesHandler fr mp bs now).avgBlockTime
          = jsToFixed 1
              (b0.timestamp - ((b1 :: rest).getLast (List.cons_ne_nil b1 rest)).timestamp)
              ((((bs.take 6).length : Int) - 1) * 60) ++ " minutes") := by
  refine ⟨?_, ?_, ?_⟩
  · show ((bs.take 6).map _).length = _
    simp [List.length_take, Nat.min_comm]
  · intro h
    show avgBlockTimeStr (bs.take 6) ++ " minutes" = _
    rcases hl : bs.take 6 with _ | ⟨x, _ | ⟨y, r⟩⟩
    · rfl
    · rfl
    · rw [hl] at h
      simp only [List.length_cons] at h
      omega
  · intro b0 b1 rest hl
    show avgBlockTimeStr (bs.take 6) ++ " minutes" = _
    rw [hl]
    rfl

/-- Witness for C7: three sampled blocks spanning 1200 seconds, so the average
is 10.0 minutes via the span formula. -/
theorem fees_avg_block_time_witness :
    (feesHandler sampleFees sampleMempool [sampleBlock 2, sampleBlock 1, sampleBlock 0]
        0).avgBlockTime
      = jsToFixed 1
          ((sampleBlock 2).timestamp
            - (([sampleBlock 1, sampleBlock 0]).getLast
                (List.cons_ne_nil (sampleBlock 1) [sampleBlock 0])).timestamp)
          (((([sampleBlock 2, sampleBlock 1, sampleBlock 0].take 6).length : Int) - 1) * 60)
        ++ " minutes" :=
  (fees_avg_block_time sampleFees sampleMempool
    [sampleBlock 2, sampleBlock 1, sampleBlock 0] 0).2.2
    (sampleBlock 2) (sampleBlock 1) [sampleBlock 0] rfl

/-- Claim C10: in the address-report recentTransactions list, an entry whose
transaction spends from the queried address in some input is tagged outgoing;
the amount field always equals the sum of the outputs paying the queried
address (so it never subtracts inputs), and when the address is absent from
every output the amount is the string 0.00000000. -/
theorem recent_tx_outgoing_amount (address : String) (tx : Tx)
    (hout : tx.vin.any
        (fun v => (v.prevout.bind Prevout.scriptpubkey_address) == some address) = true) :
    (recentTxOut address tx).type = "outgoing"
    ∧ (recentTxOut address tx).amount
        = satsToBtc ((((tx.vout.filter
            (fun v => v.scriptpubkey_address == some address)).map Vout.value).sum : Nat) : Int)
    ∧ (tx.vout.all (fun v => !(v.scriptpubkey_address == some address)) = true →
        (recentTxOut address tx).amount = "0.00000000") := by
  have hamount : (recentTxOut address tx).amount
      = satsToBtc ((((tx.vout.filter
          (fun v => v.scriptpubkey_address == some address)).map Vout.value).sum : Nat) : Int) := by
    by_cases hin : tx.vout.any (fun v => v.scriptpubkey_address == some address) = true
    · simp only [recentTxOut]
      rw [if_pos hin]
    · have hnil : tx.vout.filter (fun v => v.scriptpubkey_address == some address) = [] := by
        rw [List.filter_eq_nil_iff]
        intro v hv
        intro hcontra
        exact hin (List.any_eq_true.mpr ⟨v, hv, hcontra⟩)
      simp only [recentTxOut]
      rw [if_neg hin, hnil]
      rfl
  refine ⟨?_, hamount, ?_⟩
  · simp only [recentTxOut]
    rw [hout]
    rfl
  · intro hall
    rw [hamount]
    have hnil : tx.vout.filter (fun v => v.scriptpubkey_address == some address) = [] := by
      rw [List.filter_eq_nil_iff]
      intro v hv
      have := (List.all_eq_true.mp hall) v hv
      simpa using this
    rw [hnil]
    rfl

/-- Witness for C10: a purely outgoing transaction, spending from addrA with
no output paying addrA back. -/
theorem recent_tx_outgoing_amount_witness :
    outgoingTx.vin.any
        (fun v => (v.prevout.bind Prevout.scriptpubkey_address) == some "addrA") = true
    ∧ ((recentTxOut "addrA" outgoingTx).type = "outgoing"
      ∧ (recentTxOut "addrA" outgoingTx).amount
          = satsToBtc ((((outgoingTx.vout.filter
              (fun v => v.scriptpubkey_address == some "addrA")).map Vout.value).sum : Nat) : Int)
      ∧ (outgoingTx.vout.all (fun v => !(v.scriptpubkey_address == some "addrA")) = true →
          (recentTxOut "addrA" outgoingTx).amount = "0.00000000")) :=
  ⟨by decide, recent_tx_outgoing_amount "addrA" outgoingTx (by decide)⟩

/-- Claim C1, counterexample: with 15 upstream blocks, a supplied limit of 0
is not floored to 1 — the slice is empty and the handler fails (summary
construction reads .height of undefined), so no block list of length 1 is
returned; a limit of -1 is not floored to 1 either — JavaScript slice
drops the last element and 14 blocks come back. -/
theorem blocks_limit_zero_counterexample :
    blocksHandler 0 sampleBlocks15 0 = none
    ∧ ((blocksHandler (-1) sampleBlocks15 0).map (fun o => o.blocks.length)) = some 14 := by
  constructor
  · rfl
  · rfl

/-- Claim C1, amended: for every supplied integer limit at least 1, assuming
the upstream list has at least 15 blocks, the number of blocks returned is
min(limit, 15) — so 100 returns exactly 15 — while a limit of 0 always makes
the handler fail instead of being floored to 1. -/
theorem blocks_limit_clamped (limit : Int) (bs : List RawBlock) (now : Int)
    (h1 : 1 ≤ limit) (h15 : 15 ≤ (bs.length : Int)) :
    (∃ out, blocksHandler limit bs now = some out
      ∧ (out.blocks.length : Int) = min limit 15
      ∧ out.summary.blocksReturned = min limit 15)
    ∧ (∀ (bs2 : List RawBlock) (now2 : Int), blocksHandler 0 bs2 now2 = none) := by
  constructor
  · have h1m : 1 ≤ min limit 15 := le_min h1 (by norm_num)
    have h15m : min limit 15 ≤ 15 := min_le_right _ _
    have hm0 : 0 ≤ min limit 15 := by omega
    have hslice : jsSlice0 (min limit 15) bs = bs.take (min limit 15).toNat := by
      unfold jsSlice0
      rw [if_pos hm0]
    have hlen : (bs.take (min limit 15).toNat).length = (min limit 15).toNat := by
      rw [List.length_take]
      omega
    have hne : bs.take (min limit 15).toNat ≠ [] := by
      have hpos : 0 < (bs.take (min limit 15).toNat).length := by
        rw [hlen]; omega
      exact List.length_pos.mp hpos
    rcases hr : bs.take (min limit 15).toNat with _ | ⟨first, rest⟩
    · exact absurd hr hne
    · have hout : blocksHandler limit bs now = some
          { blocks := (first :: rest).map blockOut
            summary :=
              { blocksReturned := ((first :: rest).length : Int)
                totalTransactions := ((first :: rest).map RawBlock.tx_count).sum
                avgTxPerBlock := jsRound (((first :: rest).map RawBlock.tx_count).sum)
                  (((first :: rest).length : Int))
                totalSizeMb := jsToFixed 2 (((first :: rest).map RawBlock.size).sum) 1000000
                heightRange :=
                  toString ((first :: rest).getLast (List.cons_ne_nil first rest)).height
                    ++ " - " ++ toString first.height }
            fetchedAt := now } := by
        unfold blocksHandler
        rw [hslice, hr]
      refine ⟨_, hout, ?_, ?_⟩
      · show (((first :: rest).map blockOut).length : Int) = min limit 15
        rw [List.length_map, ← hr, hlen]
        omega
      · show (((first :: rest).length : Int)) = min limit 15
        rw [← hr, hlen]
        omega
  · intro bs2 now2
    rfl

/-- Witness for the amended C1 at limit 100 with 15 upstream blocks. -/
theorem blocks_limit_clamped_witness :
    (1 : Int) ≤ 100 ∧ (15 : Int) ≤ (sampleBlocks15.length : Int)
    ∧ ((∃ out, blocksHandler 100 sampleBlocks15 0 = some out
        ∧ (out.blocks.length : Int) = min 100 15
        ∧ out.summary.blocksReturned = min 100 15)
      ∧ (∀ (bs2 : List RawBlock) (now2 : Int), blocksHandler 0 bs2 now2 = none)) :=
  ⟨by norm_num, by decide, blocks_limit_clamped 100 sampleBlocks15 0 (by norm_num) (by decide)⟩

/-- Claim C8, counterexample: re-running the address-report handler on the
same snapshot at two capture times changes more than the fetch timestamp:
with a transaction confirmed at time 1000, hasRecentActivity is true at
capture time 1000 and false at capture time 1,000,000,000, so the outputs
differ even after clearing fetchedAt. -/
theorem idempotence_counterexample :
    ¬ ((addressReportHandler "a" (.ok sampleAddressData) (.ok [sampleTxAt (some 1000)])
          (.ok sampleTicker) 1000).toOption.map AddressReportOut.stable
        = (addressReportHandler "a" (.ok sampleAddressData) (.ok [sampleTxAt (some 1000)])
          (.ok sampleTicker) 1000000000).toOption.map AddressReportOut.stable) := by
  decide

/-- Claim C8, amended: with a fixed upstream snapshot and input, every handler
output is independent of the capture time once the fetch timestamp field is
cleared — except the address-report handler, whose hasRecentActivity flag also
depends on the capture time; clearing that flag as well makes the
address-report output capture-time independent too. -/
theorem handlers_time_invariance :
    (∀ (f : FeesRec) (s : StatsResp) (bs : List RawBlock) (t1 t2 : Int),
        (overviewHandler f s bs t1).map OverviewOut.stable
          = (overviewHandler f s bs t2).map OverviewOut.stable)
    ∧ (∀ (a : String) (d : AddressData) (t1 t2 : Int),
        (addressHandler a d t1).stable = (addressHandler a d t2).stable)
    ∧ (∀ (tx : Tx) (t1 t2 : Int),
        (transactionHandler tx t1).stable = (transactionHandler tx t2).stable)
    ∧ (∀ (f : FeesRec) (mp : MempoolInfo) (bs : List RawBlock) (t1 t2 : Int),
        (feesHandler f mp bs t1).stable = (feesHandler f mp bs t2).stable)
    ∧ (∀ (l : Int) (bs : List RawBlock) (t1 t2 : Int),
        (blocksHandler l bs t1).map BlocksOut.stable
          = (blocksHandler l bs t2).map BlocksOut.stable)
    ∧ (∀ (a : String) (addrR : Except String AddressData) (txsR : Except String (List Tx))
          (tkR : Except String Ticker) (t1 t2 : Int),
        (addressReportHandler a addrR txsR tkR t1).map AddressReportOut.stableNoClock
          = (addressReportHandler a addrR txsR tkR t2).map AddressReportOut.stableNoClock) := by
  refine ⟨?_, ?_, ?_, ?_, ?_, ?_⟩
  · intro f s bs t1 t2
    cases bs <;> rfl
  · intro a d t1 t2
    rfl
  · intro tx t1 t2
    rfl
  · intro f mp bs t1 t2
    rfl
  · intro l bs t1 t2
    rcases h : jsSlice0 (min l 15) bs with _ | ⟨x, xs⟩ <;>
      unfold blocksHandler <;> rw [h] <;> rfl
  · intro a addrR txsR tkR t1 t2
    cases addrR <;> cases tkR <;> rfl
